import Mathlib

/-!
Verification model of the orchestration-and-safety core of the survey-copilot
repository.  The Python source is shallowly embedded: pure functions become
Lean functions, the Redis-backed state (rate-limit counters, cache, sessions)
becomes explicit state passing, regular-expression search/substitution is
embedded as an executable backtracking matcher over `List Char` (ASCII text),
and code that raises exceptions returns `Except`/`Option` values.
-/

/- ────────────────────────────────────────────────────────────────────────────
   Regular-expression engine model (src/app/safety/moderator.py patterns).

   A matcher state is the wordness of the previously consumed character
   (needed for Python's zero-width boundary assertion) together with the
   remaining input.  A matcher step returns the list of possible successor
   states in exactly the order Python's backtracking engine tries them
   (greedy alternatives first), so the head of the final list is the match
   the engine reports.
──────────────────────────────────────────────────────────────────────────── -/

/-- Python regex word character over ASCII text: letter, digit or underscore. -/
def isWordChar (c : Char) : Bool := c.isAlphanum || c = '_'

/-- Wordness of the first character of the remaining input (end counts as
non-word, like end of string for a boundary assertion). -/
def optWordHead (s : List Char) : Bool :=
  match s with
  | [] => false
  | c :: _ => isWordChar c

/-- Matcher state: wordness of the character just before the position, and
the remaining input. -/
abbrev MSt := Bool × List Char

/-- Sequence a list of matcher states with the next matcher step. -/
def mbind (xs : List MSt) (f : Bool → List Char → List MSt) : List MSt :=
  xs.flatMap fun st => f st.1 st.2

/-- Zero-width word-boundary assertion. -/
def mBoundary (prevW : Bool) (s : List Char) : List MSt :=
  if prevW != optWordHead s then [(prevW, s)] else []

/-- Consume one character satisfying `p` (required). -/
def mChar (p : Char → Bool) (_prevW : Bool) (s : List Char) : List MSt :=
  match s with
  | c :: rest => if p c then [(isWordChar c, rest)] else []
  | [] => []

/-- Consume one character satisfying `p`, or nothing (`X?`, greedy: the
consuming alternative is tried first). -/
def mOptChar (p : Char → Bool) (prevW : Bool) (s : List Char) : List MSt :=
  match s with
  | c :: rest => if p c then [(isWordChar c, rest), (prevW, s)] else [(prevW, s)]
  | [] => [(prevW, s)]

/-- Case-insensitive character equality (the Python patterns use
`re.IGNORECASE`). -/
def lcEq (a b : Char) : Bool := a.toLower == b.toLower

/-- Consume a literal phrase, case-insensitively. -/
def mStrCI : List Char → Bool → List Char → List MSt
  | [], prevW, s => [(prevW, s)]
  | p :: ps, _, c :: rest => if lcEq p c then mStrCI ps (isWordChar c) rest else []
  | _ :: _, _, [] => []

/-- Consume exactly `n` decimal digits (`\d{n}`). -/
def mDigits : Nat → Bool → List Char → List MSt
  | 0, prevW, s => [(prevW, s)]
  | n + 1, _, c :: rest => if c.isDigit then mDigits n (isWordChar c) rest else []
  | _ + 1, _, [] => []

/-- Consume one or more characters satisfying `p` (`X+`), alternatives in
greedy order (longest consumption first). -/
def mMany1 (p : Char → Bool) : Bool → List Char → List MSt
  | _, [] => []
  | _, c :: rest =>
    if p c then mMany1 p (isWordChar c) rest ++ [(isWordChar c, rest)] else []

/-- Consume two or more characters satisfying `p` (`X{2,}`), greedy order. -/
def mAtLeast2 (p : Char → Bool) (prevW : Bool) (s : List Char) : List MSt :=
  mbind (mChar p prevW s) (mMany1 p)

/-- `.{0,k}` with `.` not matching a newline, alternatives in greedy order. -/
def mGap : Nat → Bool → List Char → List MSt
  | 0, prevW, s => [(prevW, s)]
  | k + 1, prevW, s =>
    (match s with
     | c :: rest => if c != '\n' then mGap k (isWordChar c) rest else []
     | [] => []) ++ [(prevW, s)]

/-- A compiled pattern: from a position (wordness of preceding character plus
remaining input) to the successor states of all complete matches, in
backtracking order. -/
abbrev Matcher := Bool → List Char → List MSt

/-- `\bP\b` for one of the literal phrases `ps` (alternation, in order).
All phrases used start and end with word characters. -/
def mPhraseWB (ps : List String) : Matcher := fun prevW s =>
  (ps.map String.data).flatMap fun p =>
    mbind (mbind (mBoundary prevW s) (mStrCI p)) mBoundary

/-- `\bA\b.{0,30}\bB\b` where `A`/`B` range over the phrase lists, as in the
diagnosis-sounding advice patterns. -/
def mGapPatternWB (as bs : List String) : Matcher := fun prevW s =>
  (as.map String.data).flatMap fun a =>
    mbind
      (mbind (mbind (mbind (mBoundary prevW s) (mStrCI a)) mBoundary) (mGap 30))
      (fun pw t =>
        (bs.map String.data).flatMap fun b =>
          mbind (mbind (mBoundary pw t) (mStrCI b)) mBoundary)

/-- `re.search`: try the pattern at every position of the string, tracking the
wordness of the preceding character; `True` iff some position matches. -/
def searchAux (m : Matcher) : Bool → List Char → Bool
  | prevW, [] => !(m prevW []).isEmpty
  | prevW, c :: rest => !(m prevW (c :: rest)).isEmpty || searchAux m (isWordChar c) rest

/-- Boolean `re.search(pattern, s)`. -/
def reSearch (m : Matcher) (s : String) : Bool := searchAux m false s.data

/-- Length of the match the backtracking engine reports at this position,
if any (the head of the alternative list). -/
def matchLenAt (m : Matcher) (prevW : Bool) (s : List Char) : Option Nat :=
  match m prevW s with
  | st :: _ => some (s.length - st.2.length)
  | [] => none

/-- `re.sub` scan: at each position, replace the reported match with `tok`
and continue after it, otherwise copy one character.  Fuel is the input
length (every step consumes at least one character). -/
def subAux (m : Matcher) (tok : List Char) : Nat → Bool → List Char → List Char
  | 0, _, s => s
  | _ + 1, _, [] => []
  | fuel + 1, prevW, c :: rest =>
    match matchLenAt m prevW (c :: rest) with
    | some (n + 1) =>
        tok ++ subAux m tok fuel (isWordChar ((c :: rest).getD n c)) (List.drop (n + 1) (c :: rest))
    | _ => c :: subAux m tok fuel (isWordChar c) rest

/-- `re.sub(pattern, tok, s)` for the patterns used by the moderator. -/
def pySub (m : Matcher) (tok : String) (s : String) : String :=
  ⟨subAux m tok.data s.data.length false s.data⟩

/- ────────────────────────────────────────────────────────────────────────────
   Pattern tables (src/app/safety/moderator.py, module level).
──────────────────────────────────────────────────────────────────────────── -/

/-- Separator class `[-.\s]` of the phone pattern ( `\s` over ASCII ). -/
def sepChar (c : Char) : Bool :=
  c = '-' || c = '.' || c = ' ' || c = '\t' || c = '\n' || c = '\r' ||
  c = '\x0b' || c = '\x0c'

/-- `\b\d{3}-\d{2}-\d{4}\b` (SSN). -/
def ssnM : Matcher := fun prevW s =>
  mbind
    (mbind
      (mbind
        (mbind (mbind (mbind (mBoundary prevW s) (mDigits 3)) (mChar (· = '-')))
          (mDigits 2))
        (mChar (· = '-')))
      (mDigits 4))
    mBoundary

/-- `\bMRN\b|\bmedical record number\b`, case-insensitive. -/
def mrnM : Matcher := mPhraseWB ["MRN", "medical record number"]

/-- `\bdate of birth\b|\bDOB\b|\bbirthdate\b`, case-insensitive. -/
def dobM : Matcher := mPhraseWB ["date of birth", "DOB", "birthdate"]

/-- `\bICD-\d+\b` (first alternative of the diagnosis-code pattern). -/
def icdNumM : Matcher := fun prevW s =>
  mbind (mbind (mbind (mBoundary prevW s) (mStrCI "ICD-".data)) (mMany1 Char.isDigit))
    mBoundary

/-- `\bICD-\d+\b|\bdiagnosis code\b`, case-insensitive. -/
def diagnosisM : Matcher := fun prevW s =>
  icdNumM prevW s ++ mPhraseWB ["diagnosis code"] prevW s

/-- `\bNPI\b|\bnational provider\b`, case-insensitive. -/
def npiM : Matcher := mPhraseWB ["NPI", "national provider"]

/-- `\bDEA number\b`, case-insensitive. -/
def deaM : Matcher := mPhraseWB ["DEA number"]

/-- `PHI_PATTERNS`: the structured-identifier detectors with their labels,
in source order. -/
def PHI_PATTERNS : List (Matcher × String) :=
  [(ssnM, "SSN"), (mrnM, "MRN"), (dobM, "DOB"), (diagnosisM, "DIAGNOSIS_CODE"),
   (npiM, "NPI"), (deaM, "DEA")]

/-- `\byou (?:should|must|need to) (?:take|start|stop|see a|visit)\b`,
alternations expanded to whole phrases in backtracking order. -/
def advice1M : Matcher := mPhraseWB
  ["you should take", "you should start", "you should stop", "you should see a",
   "you should visit",
   "you must take", "you must start", "you must stop", "you must see a",
   "you must visit",
   "you need to take", "you need to start", "you need to stop",
   "you need to see a", "you need to visit"]

/-- `\bthis (?:sounds|looks|seems) like\b.{0,30}\b(?:condition|diagnosis|disease|disorder)\b`. -/
def advice2M : Matcher := mGapPatternWB
  ["this sounds like", "this looks like", "this seems like"]
  ["condition", "diagnosis", "disease", "disorder"]

/-- `\byou (?:have|might have|could have|may have)\b.{0,30}\b(?:condition|disease|disorder|syndrome)\b`. -/
def advice3M : Matcher := mGapPatternWB
  ["you have", "you might have", "you could have", "you may have"]
  ["condition", "disease", "disorder", "syndrome"]

/-- `\bI (?:recommend|suggest|advise)\b.{0,30}\b(?:medication|treatment|therapy|doctor|specialist)\b`. -/
def advice4M : Matcher := mGapPatternWB
  ["I recommend", "I suggest", "I advise"]
  ["medication", "treatment", "therapy", "doctor", "specialist"]

/-- `\bsymptoms suggest\b`. -/
def advice5M : Matcher := mPhraseWB ["symptoms suggest"]

/-- `\bconsult a (?:doctor|physician|specialist) (?:immediately|urgently|right away)\b`. -/
def advice6M : Matcher := mPhraseWB
  ["consult a doctor immediately", "consult a doctor urgently",
   "consult a doctor right away",
   "consult a physician immediately", "consult a physician urgently",
   "consult a physician right away",
   "consult a specialist immediately", "consult a specialist urgently",
   "consult a specialist right away"]

/-- `MEDICAL_ADVICE_PATTERNS`, in source order. -/
def MEDICAL_ADVICE_PATTERNS : List Matcher :=
  [advice1M, advice2M, advice3M, advice4M, advice5M, advice6M]

/-- `PHI_COLLECTION_KEYWORDS`, in source order. -/
def PHI_COLLECTION_KEYWORDS : List String :=
  ["full name", "first name", "last name", "email address", "phone number",
   "home address", "zip code", "date of birth", "social security",
   "medical record", "patient id", "patient name", "npi number",
   "license number", "dea number", "diagnosis", "medication list",
   "prescription", "treatment plan"]

/- ────────────────────────────────────────────────────────────────────────────
   SafetyModerator (src/app/safety/moderator.py).
──────────────────────────────────────────────────────────────────────────── -/

/-- Exact (case-sensitive) list prefix test, for Python's `in` on strings. -/
def startsWithList : List Char → List Char → Bool
  | [], _ => true
  | _ :: _, [] => false
  | p :: ps, c :: cs => p == c && startsWithList ps cs

/-- Python `needle in hay` substring containment. -/
def hasSubstr : List Char → List Char → Bool
  | needle, [] => needle.isEmpty
  | needle, c :: rest => startsWithList needle (c :: rest) || hasSubstr needle rest

/-- Python `str.lower()` over ASCII text. -/
def strLower (s : String) : String := ⟨s.data.map Char.toLower⟩

/-- `SafetyModerator.check_question_for_phi`: returns `(is_safe, violation_type)`. -/
def check_question_for_phi (question_text : String) : Bool × Option String :=
  let lower := strLower question_text
  match PHI_COLLECTION_KEYWORDS.find? (fun k => hasSubstr k.data lower.data) with
  | some keyword => (false, some ("phi_keyword:" ++ keyword))
  | none =>
    match PHI_PATTERNS.find? (fun p => reSearch p.1 question_text) with
    | some p => (false, some ("phi_pattern:" ++ p.2))
    | none => (true, none)

/-- `\b(?:\+?1[-.\s]?)?\(?\d{3}\)?[-.\s]?\d{3}[-.\s]?\d{4}\b` (phone number). -/
def phoneM : Matcher := fun prevW s =>
  mbind
    (mbind
      (mbind
        (mbind
          (mbind
            (mbind
              (mbind
                (mbind (mBoundary prevW s)
                  (fun pw t =>
                    mbind (mbind (mOptChar (· = '+') pw t) (mChar (· = '1')))
                      (mOptChar sepChar) ++ [(pw, t)]))
                (mOptChar (· = '(')))
              (mDigits 3))
            (mOptChar (· = ')')))
          (mOptChar sepChar))
        (mDigits 3))
      (mOptChar sepChar))
    (fun pw t => mbind (mDigits 4 pw t) mBoundary)

/-- `\b[A-Za-z0-9._%+\-]+@[A-Za-z0-9.\-]+\.[A-Z|a-z]{2,}\b` (email address;
the last class is written with a literal `|` in the source and is kept). -/
def emailM : Matcher := fun prevW s =>
  mbind
    (mbind
      (mbind
        (mbind (mbind (mBoundary prevW s)
            (mMany1 (fun c => c.isAlphanum || c = '.' || c = '_' || c = '%' || c = '+' || c = '-')))
          (mChar (· = '@')))
        (mMany1 (fun c => c.isAlphanum || c = '.' || c = '-')))
      (mChar (· = '.')))
    (fun pw t => mbind (mAtLeast2 (fun c => c.isAlpha || c = '|') pw t) mBoundary)

/-- `SafetyModerator.check_response_for_phi`: redact SSN-like, phone-number
and email-address matches, in that order. -/
def check_response_for_phi (response_text : String) : String :=
  pySub emailM "[REDACTED-EMAIL]"
    (pySub phoneM "[REDACTED-PHONE]"
      (pySub ssnM "[REDACTED-SSN]" response_text))

/-- The fixed fallback for outputs that sound like medical advice. -/
def advice_fallback : String :=
  "I can help clarify what this survey question is asking, " ++
  "but I\x27m not able to provide medical guidance. " ++
  "For clinical questions, please consult appropriate resources."

/-- The fixed fallback for outputs that disclose a structured identifier. -/
def disclosure_fallback : String :=
  "I was unable to generate a safe response. Please contact support."

/-- Does any medical-advice pattern match the text (first loop of
`check_output`)? -/
def medicalAdviceAny (s : String) : Bool :=
  MEDICAL_ADVICE_PATTERNS.any fun m => reSearch m s

/-- Does any structured-identifier pattern match the text (second loop of
`check_output`)? -/
def phiPatternAny (s : String) : Bool :=
  PHI_PATTERNS.any fun p => reSearch p.1 s

/-- `SafetyModerator.check_output`: returns `(is_safe, safe_text)`.  The two
loops return the same fixed fallback for every pattern of their class, so
they are folded into one Boolean each. -/
def check_output (agent_output : String) : Bool × String :=
  if medicalAdviceAny agent_output then (false, advice_fallback)
  else if phiPatternAny agent_output then (false, disclosure_fallback)
  else (true, agent_output)

/-- A survey question as the orchestration layer passes it: the `dict` fields
read by the code (`q.get("id")`, `q.get("text", "")`). -/
structure QDict where
  id : Option String
  text : String
deriving DecidableEq

/-- One violation record appended by `validate_survey_for_phi`. -/
structure Violation where
  question_id : Option String
  question_text : String
  violation : Option String
  recommendation : String
deriving DecidableEq

/-- The fixed remediation instruction. -/
def phi_recommendation : String :=
  "Remove or rephrase this question to avoid collecting protected health information."

/-- `SafetyModerator.validate_survey_for_phi`. -/
def validate_survey_for_phi (questions : List QDict) : List Violation :=
  questions.flatMap fun q =>
    let r := check_question_for_phi q.text
    if r.1 then []
    else [⟨q.id, q.text.take 100, r.2, phi_recommendation⟩]

/- ────────────────────────────────────────────────────────────────────────────
   Rate limiter (src/app/redis_client.py, check_rate_limit).

   The per-key Redis state is a counter with an absolute expiry time; a key
   whose expiry has passed behaves as absent.  `INCR` creates an absent key
   with value 1, and the code attaches the window-length TTL exactly when the
   returned count is 1, i.e. on the increment that creates the key.
──────────────────────────────────────────────────────────────────────────── -/

/-- Redis value behind one `rate_limit:*` key: current count and the absolute
time at which the key expires. -/
structure RateEntry where
  count : Nat
  expireAt : Nat
deriving DecidableEq

/-- The key as visible at time `now`: an entry whose expiry has passed is
absent. -/
def liveEntry : Option RateEntry → Nat → Option RateEntry
  | none, _ => none
  | some e, now => if now < e.expireAt then some e else none

/-- `INCR` followed by the conditional `EXPIRE` of `check_rate_limit`:
returns the incremented count and the new per-key state. -/
def redisIncr (st : Option RateEntry) (now window_seconds : Nat) : Nat × RateEntry :=
  match liveEntry st now with
  | none => (1, ⟨1, now + window_seconds⟩)
  | some e => (e.count + 1, ⟨e.count + 1, e.expireAt⟩)

/-- `check_rate_limit(key, limit, window_seconds)` for one key: True if within
limit (`count <= limit`), plus the updated key state. -/
def check_rate_limit (st : Option RateEntry) (now limit window_seconds : Nat) :
    Bool × RateEntry :=
  let r := redisIncr st now window_seconds
  (decide (r.1 ≤ limit), r.2)

/-- Apply a sequence of `check_rate_limit` calls at the given times,
threading the key state; returns the list of results and the final state. -/
def applyCalls (st : Option RateEntry) (ts : List Nat) (limit window_seconds : Nat) :
    List Bool × Option RateEntry :=
  match ts with
  | [] => ([], st)
  | t :: rest =>
    let r := check_rate_limit st t limit window_seconds
    let rec' := applyCalls (some r.2) rest limit window_seconds
    (r.1 :: rec'.1, rec'.2)

/- ────────────────────────────────────────────────────────────────────────────
   Session state (src/app/redis_client.py set_session/get_session and
   src/app/agents/attempt_agent.py save_partial_progress).

   The session value is a JSON object; `save_partial_progress` reads it
   (or `{}`), runs `dict.update` with exactly the keys `survey_id`,
   `answers`, `last_saved`, and writes it back with a 7-day TTL.  The model
   keeps those three fields plus the untouched remainder of the object.
──────────────────────────────────────────────────────────────────────────── -/

/-- The stored session object: the three keys written by
`save_partial_progress` plus all other keys of the JSON object. -/
structure Session where
  survey_id : Option String
  answers : List (String × String)
  last_saved : Option Nat
  extra : List (String × String)
deriving DecidableEq

/-- A freshly created session object (`await get_session(...) or {}`). -/
def emptySession : Session := ⟨none, [], none, []⟩

/-- `AttemptAgent.save_partial_progress`: merge the three keys into the
existing session object (`dict.update`) and store it with TTL 604800 s.
`now` stands for `time.time()`. -/
def save_partial_progress (existing : Option Session) (survey_id : String)
    (answers : List (String × String)) (now : Nat) : Session × Nat :=
  let session := existing.getD emptySession
  (⟨some survey_id, answers, some now, session.extra⟩, 604800)

/- ────────────────────────────────────────────────────────────────────────────
   Clarification with caching (src/app/agents/attempt_agent.py,
   clarify_question) and the ClarificationResult schema
   (src/app/schemas/__init__.py).
──────────────────────────────────────────────────────────────────────────── -/

/-- `ClarificationResult` (pydantic model). -/
structure ClarificationResult where
  question_id : String
  clarification : String
  examples : Option (List String)
  did_change_meaning : Bool
deriving DecidableEq

/-- The structured tool-call payload the provider returns for a
clarification request. -/
structure ProviderClarification where
  clarification : String
  examples : Option (List String)
  did_change_meaning : Bool
deriving DecidableEq

/-- The clarification cache: association list from Redis key to the stored
result and the TTL it was written with; `cache_set` overwrites by
prepending, `cache_get` reads the most recent binding. -/
abbrev ClarCache := List (String × (ClarificationResult × Nat))

/-- `cache_get` restricted to clarification entries (a stored entry is a
non-empty JSON object, hence truthy). -/
def cacheGet : ClarCache → String → Option ClarificationResult
  | [], _ => none
  | (k', v) :: rest, k => if k = k' then some v.1 else cacheGet rest k

/-- `cache_set key value ttl`. -/
def cacheSet (c : ClarCache) (k : String) (v : ClarificationResult) (ttl : Nat) :
    ClarCache :=
  (k, (v, ttl)) :: c

/-- Everything observable about one `clarify_question` call: the returned
result, the cache afterwards, whether the provider was invoked, and whether
the meaning-changed warning was logged. -/
structure ClarifyOutcome where
  result : ClarificationResult
  cache : ClarCache
  provider_called : Bool
  warned : Bool

/-- The cache key built by the source: `f"clarification:{hash(text)}"`.
`hashFn` stands for Python's builtin `hash`, an arbitrary but fixed
deterministic function for the duration of a process. -/
def clarificationKey (hashFn : String → Int) (text : String) : String :=
  "clarification:" ++ toString (hashFn text)

/-- `AttemptAgent.clarify_question`.  On a cache hit the stored result is
returned and the provider is not invoked; on a miss the provider payload is
taken, the meaning-changed flag is forced to `False` (with a warning when the
provider asserted it), and the result is cached for 24 hours. -/
def clarify_question (hashFn : String → Int) (cache : ClarCache) (question : QDict)
    (provider : ProviderClarification) : ClarifyOutcome :=
  let cache_key := clarificationKey hashFn question.text
  match cacheGet cache cache_key with
  | some cached => ⟨cached, cache, false, false⟩
  | none =>
    let warned := provider.did_change_meaning
    let dcm := if provider.did_change_meaning then false else provider.did_change_meaning
    let result : ClarificationResult :=
      ⟨question.id.getD "", provider.clarification, provider.examples, dcm⟩
    ⟨result, cacheSet cache cache_key result 86400, true, warned⟩

/- ────────────────────────────────────────────────────────────────────────────
   Progress computation (src/app/agents/attempt_agent.py, get_progress).

   The source computes with Python ints and floats; the model uses exact
   rationals, with CPython's `round(x, 1)` rendered as round-half-to-even at
   one decimal and `int(x)` as truncation toward zero.  `questions_total = 0`
   raises ZeroDivisionError in the source, modeled as `none`.
──────────────────────────────────────────────────────────────────────────── -/

/-- `int(x)`: truncation toward zero. -/
def truncToInt (q : ℚ) : ℤ := if 0 ≤ q then ⌊q⌋ else ⌈q⌉

/-- Round to the nearest integer, ties to even (CPython `round`). -/
def roundHalfEven (q : ℚ) : ℤ :=
  let fl := ⌊q⌋
  let frac := q - (fl : ℚ)
  if frac < 1 / 2 then fl
  else if 1 / 2 < frac then fl + 1
  else if fl % 2 = 0 then fl else fl + 1

/-- `round(x, 1)`. -/
def pyRound1 (q : ℚ) : ℚ := ((roundHalfEven (q * 10) : ℤ) : ℚ) / 10

/-- The `avg_seconds_per_question` default parameter (the orchestrator never
passes another value). -/
def avg_seconds_per_question : ℚ := 18

/-- `ProgressMessage` (pydantic model). -/
structure ProgressMessage where
  questions_total : ℤ
  questions_answered : ℤ
  estimated_seconds_remaining : ℤ
  motivational_message : String
  percent_complete : ℚ
deriving DecidableEq

/-- `AttemptAgent.get_progress`.  Division by `questions_total` raises
`ZeroDivisionError` when it is zero, so no message is produced. -/
def get_progress (questions_total questions_answered : ℤ) : Option ProgressMessage :=
  if questions_total = 0 then none
  else
    let remaining_questions := questions_total - questions_answered
    let estimated_seconds_remaining :=
      truncToInt ((remaining_questions : ℚ) * avg_seconds_per_question)
    let percent_complete :=
      pyRound1 ((questions_answered : ℚ) / (questions_total : ℚ) * 100)
    let message :=
      if percent_complete = 0 then
        "This survey takes about " ++
          toString (truncToInt ((questions_total : ℚ) * avg_seconds_per_question / 60)) ++
          " min. Let\x27s go!"
      else if percent_complete < 33 then "Great start! Keep going."
      else if percent_complete < 66 then
        "Halfway there — only " ++ toString remaining_questions ++ " questions left!"
      else if percent_complete < 90 then "Almost done! Your input makes a difference."
      else
        "Just " ++ toString remaining_questions ++ " more question" ++
          (if remaining_questions > 1 then "s" else "") ++ "!"
    some ⟨questions_total, questions_answered, estimated_seconds_remaining,
          message, percent_complete⟩

/- ────────────────────────────────────────────────────────────────────────────
   Orchestrator (src/app/agents/orchestrator.py).

   Each `run_*` method is modeled as a pure pipeline over its collaborators:
   `rateAllow` is the response function of `check_rate_limit`, `auditOk`
   says whether the audit-log write (`_log`) raises, and the agent step is
   passed in as an `Except` value (an exception from the agent propagates to
   the caller before `_log` runs).  Alongside the caller-visible result, each
   pipeline returns the trace of side effects it performed, in order.
──────────────────────────────────────────────────────────────────────────── -/

/-- The typed failures an orchestrated call can surface. -/
inductive OrchError
  | quotaExceeded (msg : String)
  | providerError (msg : String)
deriving DecidableEq

/-- Side effects an orchestrated call can perform, in order. -/
inductive OrchEvent
  | rateCheck (key : String) (limit window : Nat) (allowed : Bool)
  | agentInvoke (agent action : String)
  | outputCheck (text : String) (safe : Bool)
  | auditWrite (ok : Bool)
  | auditFailureLogged
deriving DecidableEq

/-- `AgentOrchestrator._log`: the audit write is attempted; a failure is
caught and logged locally, and nothing is returned either way. -/
def logWrite (auditOk : Bool) : List OrchEvent :=
  if auditOk then [.auditWrite true] else [.auditWrite false, .auditFailureLogged]

/-- `AgentOrchestrator.run_quality_check`: rate limit `design:{admin_id}`,
100 per 3600 s; on denial raise before any further work. -/
def run_quality_check (rateAllow : String → Nat → Nat → Bool) (auditOk : Bool)
    (admin_id : String) (agent : Except OrchError α) :
    Except OrchError α × List OrchEvent :=
  let key := "design:" ++ admin_id
  let allowed := rateAllow key 100 3600
  if !allowed then
    (.error (.quotaExceeded "Rate limit exceeded: try again in an hour"),
     [.rateCheck key 100 3600 false])
  else
    match agent with
    | .error e =>
      (.error e, [.rateCheck key 100 3600 true, .agentInvoke "design" "quality_check"])
    | .ok result =>
      (.ok result,
       [.rateCheck key 100 3600 true, .agentInvoke "design" "quality_check"] ++
         logWrite auditOk)

/-- `AgentOrchestrator.run_generate_variants`: no rate-limit check appears in
the source; the agent is invoked directly and the call is audit-logged. -/
def run_generate_variants (_rateAllow : String → Nat → Nat → Bool) (auditOk : Bool)
    (_admin_id : String) (agent : Except OrchError α) :
    Except OrchError α × List OrchEvent :=
  match agent with
  | .error e => (.error e, [.agentInvoke "design" "generate_variants"])
  | .ok result =>
    (.ok result, [.agentInvoke "design" "generate_variants"] ++ logWrite auditOk)

/-- The moderation substitution of `run_clarify_question`: replace the
clarification text when `check_output` flags it. -/
def moderateClarification (r : ClarificationResult) : ClarificationResult :=
  let checked := check_output r.clarification
  if checked.1 then r
  else ⟨r.question_id, checked.2, r.examples, r.did_change_meaning⟩

/-- `AgentOrchestrator.run_clarify_question`: rate limit
`clarify:{doctor_id}:{survey_id}`, 10 per 86400 s; then the attempt agent,
then output moderation on the clarification text, then the audit write. -/
def run_clarify_question (rateAllow : String → Nat → Nat → Bool) (auditOk : Bool)
    (doctor_id survey_id : String) (agent : Except OrchError ClarificationResult) :
    Except OrchError ClarificationResult × List OrchEvent :=
  let key := "clarify:" ++ doctor_id ++ ":" ++ survey_id
  let allowed := rateAllow key 10 86400
  if !allowed then
    (.error (.quotaExceeded "Clarification limit reached for this survey"),
     [.rateCheck key 10 86400 false])
  else
    match agent with
    | .error e =>
      (.error e, [.rateCheck key 10 86400 true, .agentInvoke "attempt" "clarify_question"])
    | .ok result =>
      let checked := check_output result.clarification
      (.ok (moderateClarification result),
       [.rateCheck key 10 86400 true, .agentInvoke "attempt" "clarify_question",
        .outputCheck result.clarification checked.1] ++ logWrite auditOk)

/-- `AgentOrchestrator.run_completion_summary`: no rate-limit check; agent
then audit write. -/
def run_completion_summary (_rateAllow : String → Nat → Nat → Bool) (auditOk : Bool)
    (_doctor_id : String) (agent : Except OrchError α) :
    Except OrchError α × List OrchEvent :=
  match agent with
  | .error e => (.error e, [.agentInvoke "attempt" "completion_summary"])
  | .ok result =>
    (.ok result, [.agentInvoke "attempt" "completion_summary"] ++ logWrite auditOk)

/-- `AgentOrchestrator.run_insight_analysis`: no rate-limit check; agent then
audit write. -/
def run_insight_analysis (_rateAllow : String → Nat → Nat → Bool) (auditOk : Bool)
    (_admin_id : String) (agent : Except OrchError α) :
    Except OrchError α × List OrchEvent :=
  match agent with
  | .error e => (.error e, [.agentInvoke "insight" "analyze"])
  | .ok result =>
    (.ok result, [.agentInvoke "insight" "analyze"] ++ logWrite auditOk)


/- ────────────────────────────────────────────────────────────────────────────
   Helper lemmas.
──────────────────────────────────────────────────────────────────────────── -/

/-- A live counter at `(c, exp)` counts every call made before `exp` and
keeps its expiry; the i-th of these calls is allowed iff `c + i + 1 ≤ limit`. -/
theorem applyCalls_live (limit window : Nat) :
    ∀ (ts : List Nat) (c exp : Nat), (∀ t ∈ ts, t < exp) →
    applyCalls (some ⟨c, exp⟩) ts limit window =
      ((List.range ts.length).map (fun i => decide (c + i + 1 ≤ limit)),
       some ⟨c + ts.length, exp⟩)
  | [], c, exp, _ => by simp [applyCalls]
  | t :: rest, c, exp, h => by
    have ht : t < exp := h t (by simp)
    have ih := applyCalls_live limit window rest (c + 1) exp
      (fun u hu => h u (by simp [hu]))
    simp only [applyCalls, check_rate_limit, redisIncr, liveEntry, if_pos ht, ih,
      List.length_cons, List.range_succ_eq_map, List.map_cons, List.map_map,
      Prod.mk.injEq, List.cons.injEq]
    refine ⟨⟨trivial, ?_⟩, by rw [show c + 1 + rest.length = c + (rest.length + 1) from by omega]⟩
    apply List.map_congr_left
    intro i _
    simp only [Function.comp_apply]
    exact decide_eq_decide.mpr (by omega)

/-- From a key that is absent (or expired) at the first call time, a batch of
calls all made before the window closes produces the fixed-window pattern:
the i-th call is allowed iff `i + 1 ≤ limit`, and the key then holds the
batch size with expiry `t0 + window`. -/
theorem applyCalls_fresh (limit window : Nat) (st : Option RateEntry) (t0 : Nat)
    (rest : List Nat) (hdead : liveEntry st t0 = none)
    (hin : ∀ t ∈ rest, t < t0 + window) :
    applyCalls st (t0 :: rest) limit window =
      ((List.range (rest.length + 1)).map (fun i => decide (i + 1 ≤ limit)),
       some ⟨rest.length + 1, t0 + window⟩) := by
  have h1 := applyCalls_live limit window rest 1 (t0 + window) hin
  simp only [applyCalls, check_rate_limit, redisIncr, hdead, h1,
    List.range_succ_eq_map, List.map_cons, List.map_map,
    Prod.mk.injEq, List.cons.injEq]
  refine ⟨⟨by norm_num, ?_⟩, by rw [Nat.add_comm 1 rest.length]⟩
  apply List.map_congr_left
  intro i _
  simp only [Function.comp_apply]
  exact decide_eq_decide.mpr (by omega)

/- ────────────────────────────────────────────────────────────────────────────
   Claim theorems.
──────────────────────────────────────────────────────────────────────────── -/

/-- C2: for every quota key state that is fresh (absent or expired) at the
first call time, with limit `L ≥ 1` and a window, sequential calls return
`count ≤ limit`, so the i-th in-window call succeeds iff `i + 1 ≤ L` (exactly
the first `L` succeed and later in-window calls fail); once the window has
elapsed the counter has expired, so a new batch starting at any `u0 ≥ t0 +
window` again has exactly its first `L` calls succeed. -/
theorem check_rate_limit_window (limit window : Nat) (hL : 1 ≤ limit)
    (st : Option RateEntry) (t0 : Nat) (rest : List Nat)
    (hdead : liveEntry st t0 = none)
    (hin : ∀ t ∈ rest, t < t0 + window) :
    (∀ s now, (check_rate_limit s now limit window).1 =
        decide ((redisIncr s now window).1 ≤ limit)) ∧
    (applyCalls st (t0 :: rest) limit window).1 =
      (List.range (rest.length + 1)).map (fun i => decide (i + 1 ≤ limit)) ∧
    (applyCalls st (t0 :: rest) limit window).1.head? = some true ∧
    (applyCalls st (t0 :: rest) limit window).2 =
      some ⟨rest.length + 1, t0 + window⟩ ∧
    ∀ (u0 : Nat) (us : List Nat), t0 + window ≤ u0 →
      (∀ u ∈ us, u < u0 + window) →
      (applyCalls ((applyCalls st (t0 :: rest) limit window).2)
          (u0 :: us) limit window).1 =
        (List.range (us.length + 1)).map (fun i => decide (i + 1 ≤ limit)) ∧
      (applyCalls ((applyCalls st (t0 :: rest) limit window).2)
          (u0 :: us) limit window).1.head? = some true := by
  have hfresh := applyCalls_fresh limit window st t0 rest hdead hin
  have hhead : ∀ (n : Nat),
      ((List.range (n + 1)).map (fun i => decide (i + 1 ≤ limit))).head? =
        some true := by
    intro n
    simp only [List.range_succ_eq_map, List.map_cons, List.head?_cons,
      Option.some.injEq]
    simpa using hL
  refine ⟨fun s now => rfl, by rw [hfresh], by rw [hfresh]; exact hhead _,
    by rw [hfresh], ?_⟩
  intro u0 us hu0 hus
  have hdead2 : liveEntry (applyCalls st (t0 :: rest) limit window).2 u0 = none := by
    rw [hfresh]
    simp only [liveEntry, if_neg (by omega : ¬ u0 < t0 + window)]
  have h2 := applyCalls_fresh limit window _ u0 us hdead2 hus
  exact ⟨by rw [h2], by rw [h2]; exact hhead _⟩

/-- Witness for C2 at limit 2, window 10: calls at times 0, 1, 2 give
true, true, false, and a fresh batch at times 10, 11, 12 again gives
true, true, false. -/
theorem check_rate_limit_window_witness :
    (applyCalls none [0, 1, 2] 2 10).1 =
      (List.range 3).map (fun i => decide (i + 1 ≤ 2)) ∧
    (applyCalls (applyCalls none [0, 1, 2] 2 10).2 [10, 11, 12] 2 10).1 =
      (List.range 3).map (fun i => decide (i + 1 ≤ 2)) := by
  have h := check_rate_limit_window 2 10 (by decide) none 0 [1, 2] (by decide)
    (by decide)
  exact ⟨h.2.1, (h.2.2.2.2 10 [11, 12] (by decide) (by decide)).1⟩

/-- C4 counterexample: a previously saved answer whose key is absent from the
newly supplied mapping is not preserved — `save_partial_progress` replaces
the whole `answers` value, so the earlier answer for `q1` is gone. -/
theorem save_partial_progress_cex :
    ((save_partial_progress
        (some ⟨some "s1", [("q1", "a")], some 5, [("locale", "en")]⟩)
        "s1" [("q2", "b")] 99).1.answers.lookup "q1" = none) ∧
    ¬ (("q1", "a") ∈ (save_partial_progress
        (some ⟨some "s1", [("q1", "a")], some 5, [("locale", "en")]⟩)
        "s1" [("q2", "b")] 99).1.answers) := by
  exact ⟨rfl, by decide⟩

/-- C4 (amended): `save_partial_progress` replaces the `answers` mapping
wholesale with the newly supplied mapping (previously saved keys absent from
it are dropped), sets `survey_id` and `last_saved`, stores with a 7-day TTL,
and leaves every session field other than `survey_id`, `answers` and
`last_saved` unchanged. -/
theorem save_partial_progress_spec (existing : Option Session) (survey_id : String)
    (answers : List (String × String)) (now : Nat) :
    (save_partial_progress existing survey_id answers now).1.answers = answers ∧
    (save_partial_progress existing survey_id answers now).1.extra =
      (existing.getD emptySession).extra ∧
    (save_partial_progress existing survey_id answers now).1.survey_id =
      some survey_id ∧
    (save_partial_progress existing survey_id answers now).1.last_saved = some now ∧
    (save_partial_progress existing survey_id answers now).2 = 604800 :=
  ⟨rfl, rfl, rfl, rfl, rfl⟩

/-- `clarify_question` on a cache miss: the provider path. -/
theorem clarify_question_miss (hashFn : String → Int) (cache : ClarCache)
    (q : QDict) (p : ProviderClarification)
    (h : cacheGet cache (clarificationKey hashFn q.text) = none) :
    clarify_question hashFn cache q p =
      ⟨⟨q.id.getD "", p.clarification, p.examples,
          if p.did_change_meaning then false else p.did_change_meaning⟩,
        (clarificationKey hashFn q.text,
          (⟨q.id.getD "", p.clarification, p.examples,
              if p.did_change_meaning then false else p.did_change_meaning⟩, 86400))
          :: cache,
        true, p.did_change_meaning⟩ := by
  simp only [clarify_question, cacheSet]
  rw [h]

/-- `clarify_question` on a cache hit: the stored result, untouched. -/
theorem clarify_question_hit (hashFn : String → Int) (cache : ClarCache)
    (q : QDict) (p : ProviderClarification) (r : ClarificationResult)
    (h : cacheGet cache (clarificationKey hashFn q.text) = some r) :
    clarify_question hashFn cache q p = ⟨r, cache, false, false⟩ := by
  simp only [clarify_question, cacheSet]
  rw [h]

/-- C5: on a cache miss, `clarify_question` invokes the provider and stores
the result under the fingerprint key (hash of the question text) with TTL
86400 s; a second call with the same question text hits the cache, returns
the stored result, does not invoke the provider and leaves the cache
unchanged — one provider invocation across the two calls. -/
theorem clarify_question_cache_spec (hashFn : String → Int) (cache : ClarCache)
    (q q2 : QDict) (p1 p2 : ProviderClarification)
    (hmiss : cacheGet cache (clarificationKey hashFn q.text) = none)
    (htext : q2.text = q.text) :
    (clarify_question hashFn cache q p1).provider_called = true ∧
    (clarify_question hashFn cache q p1).cache =
      (clarificationKey hashFn q.text,
        ((clarify_question hashFn cache q p1).result, 86400)) :: cache ∧
    (clarify_question hashFn (clarify_question hashFn cache q p1).cache q2 p2).provider_called = false ∧
    (clarify_question hashFn (clarify_question hashFn cache q p1).cache q2 p2).result =
      (clarify_question hashFn cache q p1).result ∧
    (clarify_question hashFn (clarify_question hashFn cache q p1).cache q2 p2).cache =
      (clarify_question hashFn cache q p1).cache := by
  have e1 := clarify_question_miss hashFn cache q p1 hmiss
  have hget : cacheGet (clarify_question hashFn cache q p1).cache
      (clarificationKey hashFn q2.text) =
      some (clarify_question hashFn cache q p1).result := by
    rw [e1, htext]
    simp [cacheGet]
  have e2 := clarify_question_hit hashFn _ q2 p2 _ hget
  exact ⟨by rw [e1], by rw [e1], by rw [e2], by rw [e2], by rw [e2]⟩

/-- Witness for C5 on a concrete hash function, empty cache and question. -/
theorem clarify_question_cache_witness :
    (clarify_question (fun _ => (0 : Int)) [] ⟨some "q7", "What is NPS?"⟩
        ⟨"c1", none, false⟩).provider_called = true ∧
    (clarify_question (fun _ => (0 : Int))
        (clarify_question (fun _ => (0 : Int)) [] ⟨some "q7", "What is NPS?"⟩
          ⟨"c1", none, false⟩).cache
        ⟨some "q9", "What is NPS?"⟩ ⟨"c2", none, true⟩).provider_called = false ∧
    (clarify_question (fun _ => (0 : Int))
        (clarify_question (fun _ => (0 : Int)) [] ⟨some "q7", "What is NPS?"⟩
          ⟨"c1", none, false⟩).cache
        ⟨some "q9", "What is NPS?"⟩ ⟨"c2", none, true⟩).result =
      (clarify_question (fun _ => (0 : Int)) [] ⟨some "q7", "What is NPS?"⟩
        ⟨"c1", none, false⟩).result := by
  have h := clarify_question_cache_spec (fun _ => (0 : Int)) []
    ⟨some "q7", "What is NPS?"⟩ ⟨some "q9", "What is NPS?"⟩
    ⟨"c1", none, false⟩ ⟨"c2", none, true⟩ rfl rfl
  exact ⟨h.1, h.2.2.1, h.2.2.2.1⟩

/-- The cache invariant maintained by `clarify_question`: every stored
clarification has its meaning-changed flag false.  It holds of the empty
cache the process starts from and is preserved by every write (only
`clarify_question` writes `clarification:*` keys). -/
def clarCacheWF (c : ClarCache) : Prop :=
  ∀ e ∈ c, (e.2.1).did_change_meaning = false

/-- Reads from a well-formed cache return a false flag. -/
theorem cacheGet_wf : ∀ (c : ClarCache) (k : String) (r : ClarificationResult),
    clarCacheWF c → cacheGet c k = some r → r.did_change_meaning = false
  | [], _, _, _, h => by simp [cacheGet] at h
  | (k', v) :: rest, k, r, hwf, h => by
    by_cases hk : k = k'
    · have hv : v.1 = r := by simpa [cacheGet, hk] using h
      rw [← hv]
      exact hwf (k', v) (by simp)
    · exact cacheGet_wf rest k r (fun e he => hwf e (by simp [he]))
        (by simpa [cacheGet, hk] using h)

/-- C6: a `clarify_question` call against a well-formed cache always returns
a result whose `did_change_meaning` is false — on the provider path the flag
is forced to false even when the provider reports true — the cache stays
well-formed, and on the provider path a warning is recorded exactly when the
provider asserted the flag. -/
theorem clarify_question_meaning_flag (hashFn : String → Int) (cache : ClarCache)
    (q : QDict) (p : ProviderClarification) (hwf : clarCacheWF cache) :
    (clarify_question hashFn cache q p).result.did_change_meaning = false ∧
    clarCacheWF (clarify_question hashFn cache q p).cache ∧
    (cacheGet cache (clarificationKey hashFn q.text) = none →
      ((clarify_question hashFn cache q p).warned = true ↔
        p.did_change_meaning = true)) := by
  cases hc : cacheGet cache (clarificationKey hashFn q.text) with
  | some r =>
    have e := clarify_question_hit hashFn cache q p r hc
    refine ⟨by rw [e]; exact cacheGet_wf cache _ r hwf hc, by rw [e]; exact hwf, ?_⟩
    intro hnone
    exact Option.noConfusion hnone
  | none =>
    have e := clarify_question_miss hashFn cache q p hc
    have hflag : (if p.did_change_meaning then false else p.did_change_meaning) = false := by
      cases p.did_change_meaning <;> simp
    refine ⟨by rw [e]; exact hflag, ?_, fun _ => by rw [e]⟩
    rw [e]
    intro e' he'
    rcases List.mem_cons.mp he' with h | h
    · rw [h]
      exact hflag
    · exact hwf e' h

/-- Witness for C6: empty cache, provider asserting the meaning changed. -/
theorem clarify_question_meaning_flag_witness :
    (clarify_question (fun _ => (0 : Int)) [] ⟨some "q1", "How often?"⟩
        ⟨"c", none, true⟩).result.did_change_meaning = false ∧
    (clarify_question (fun _ => (0 : Int)) [] ⟨some "q1", "How often?"⟩
        ⟨"c", none, true⟩).warned = true := by
  have h := clarify_question_meaning_flag (fun _ => (0 : Int)) []
    ⟨some "q1", "How often?"⟩ ⟨"c", none, true⟩ (by intro e he; cases he)
  exact ⟨h.1, (h.2.2 rfl).mpr rfl⟩

/-- C10: `get_progress` is defined exactly under the precondition
`questions_total ≥ 1` (more precisely, nonzero): with `questions_total ≥ 1`
it returns a `ProgressMessage` whose `percent_complete` is
`round(questions_answered / questions_total * 100, 1)`, while with
`questions_total = 0` the percent computation divides by zero
(`ZeroDivisionError`) and no `ProgressMessage` is returned. -/
theorem get_progress_spec (questions_total questions_answered : ℤ)
    (h : 1 ≤ questions_total) :
    (∃ m : ProgressMessage,
      get_progress questions_total questions_answered = some m ∧
      m.percent_complete =
        pyRound1 ((questions_answered : ℚ) / (questions_total : ℚ) * 100) ∧
      m.questions_total = questions_total ∧
      m.questions_answered = questions_answered) ∧
    get_progress 0 questions_answered = none := by
  have h0 : questions_total ≠ 0 := by omega
  constructor
  · cases e : get_progress questions_total questions_answered with
    | none => simp [get_progress, h0] at e
    | some m =>
      simp only [get_progress, if_neg h0, Option.some.injEq] at e
      refine ⟨m, rfl, ?_, ?_, ?_⟩ <;> rw [← e]
  · simp [get_progress]

/-- Witness for C10 at 4 questions, 1 answered: 25 percent. -/
theorem get_progress_spec_witness :
    ((∃ m : ProgressMessage,
        get_progress 4 1 = some m ∧
        m.percent_complete = pyRound1 ((1 : ℚ) / (4 : ℚ) * 100) ∧
        m.questions_total = 4 ∧ m.questions_answered = 1) ∧
      get_progress 0 1 = none) ∧
    pyRound1 ((1 : ℚ) / (4 : ℚ) * 100) = 25 := by
  refine ⟨get_progress_spec 4 1 (by decide), ?_⟩
  have h : ((1 : ℚ) / 4 * 100) = 25 := by norm_num
  rw [h]
  unfold pyRound1 roundHalfEven
  norm_num

/-- C1 counterexample: with a rate limiter that denies every key, the
generate-variants action still invokes the Generation Agent, performs the
audit write and succeeds — its trace contains no rate check and the call is
not failed with a quota-exceeded error. -/
theorem run_generate_variants_no_rate_check :
    run_generate_variants (fun _ _ _ => false) true "admin-1" (Except.ok (0 : Nat)) =
      (Except.ok 0,
       [OrchEvent.agentInvoke "design" "generate_variants",
        OrchEvent.auditWrite true]) := rfl

/-- C1 (amended): the quality-check and clarification actions check the
rate-limit policy matching the action before invoking the agent, and on
denial fail immediately with a quota-exceeded error having performed no
further work (the trace holds only the failed rate check: no agent
invocation, no output moderation, no audit write); the generate-variants
action performs no rate-limit check and always proceeds to the agent. -/
theorem orchestrator_rate_gate {α : Type} (rateAllow : String → Nat → Nat → Bool)
    (auditOk : Bool) (admin_id doctor_id survey_id : String)
    (agentQ : Except OrchError α) (agentC : Except OrchError ClarificationResult)
    (agentV : α)
    (hq : rateAllow ("design:" ++ admin_id) 100 3600 = false)
    (hc : rateAllow ("clarify:" ++ doctor_id ++ ":" ++ survey_id) 10 86400 = false) :
    run_quality_check rateAllow auditOk admin_id agentQ =
      (.error (.quotaExceeded "Rate limit exceeded: try again in an hour"),
       [.rateCheck ("design:" ++ admin_id) 100 3600 false]) ∧
    run_clarify_question rateAllow auditOk doctor_id survey_id agentC =
      (.error (.quotaExceeded "Clarification limit reached for this survey"),
       [.rateCheck ("clarify:" ++ doctor_id ++ ":" ++ survey_id) 10 86400 false]) ∧
    run_generate_variants rateAllow auditOk admin_id (Except.ok agentV) =
      (.ok agentV,
       [.agentInvoke "design" "generate_variants"] ++ logWrite auditOk) := by
  refine ⟨?_, ?_, ?_⟩
  · simp [run_quality_check, hq]
  · simp [run_clarify_question, hc]
  · simp [run_generate_variants]

/-- Witness for C1 (amended) with a deny-all limiter. -/
theorem orchestrator_rate_gate_witness :
    run_quality_check (fun _ _ _ => false) true "a1" (Except.ok (0 : Nat)) =
      (.error (.quotaExceeded "Rate limit exceeded: try again in an hour"),
       [.rateCheck "design:a1" 100 3600 false]) ∧
    run_clarify_question (fun _ _ _ => false) true "d1" "s1"
        (Except.ok ⟨"q", "text", none, false⟩) =
      (.error (.quotaExceeded "Clarification limit reached for this survey"),
       [.rateCheck "clarify:d1:s1" 10 86400 false]) := by
  have h := orchestrator_rate_gate (fun _ _ _ => false) true "a1" "d1" "s1"
    (Except.ok (0 : Nat)) (Except.ok ⟨"q", "text", none, false⟩) 0 rfl rfl
  exact ⟨h.1, h.2.1⟩

/-- C3: for every orchestrated action that succeeds at the agent step, the
caller receives exactly the same success result whether the audit-log write
succeeds or raises; when it raises, the failure is logged locally
(`auditFailureLogged` appears in the trace) and no error is surfaced. -/
theorem orchestrator_audit_transparent {α : Type}
    (rateAllow : String → Nat → Nat → Bool)
    (admin_id doctor_id survey_id : String) (r : α) (rc : ClarificationResult)
    (hq : rateAllow ("design:" ++ admin_id) 100 3600 = true)
    (hc : rateAllow ("clarify:" ++ doctor_id ++ ":" ++ survey_id) 10 86400 = true) :
    ((run_quality_check rateAllow false admin_id (Except.ok r)).1 = .ok r ∧
     (run_quality_check rateAllow true admin_id (Except.ok r)).1 = .ok r ∧
     OrchEvent.auditFailureLogged ∈
       (run_quality_check rateAllow false admin_id (Except.ok r)).2) ∧
    ((run_generate_variants rateAllow false admin_id (Except.ok r)).1 = .ok r ∧
     (run_generate_variants rateAllow true admin_id (Except.ok r)).1 = .ok r ∧
     OrchEvent.auditFailureLogged ∈
       (run_generate_variants rateAllow false admin_id (Except.ok r)).2) ∧
    ((run_clarify_question rateAllow false doctor_id survey_id (Except.ok rc)).1 =
       .ok (moderateClarification rc) ∧
     (run_clarify_question rateAllow true doctor_id survey_id (Except.ok rc)).1 =
       .ok (moderateClarification rc) ∧
     OrchEvent.auditFailureLogged ∈
       (run_clarify_question rateAllow false doctor_id survey_id (Except.ok rc)).2) ∧
    ((run_completion_summary rateAllow false doctor_id (Except.ok r)).1 = .ok r ∧
     (run_completion_summary rateAllow true doctor_id (Except.ok r)).1 = .ok r ∧
     OrchEvent.auditFailureLogged ∈
       (run_completion_summary rateAllow false doctor_id (Except.ok r)).2) ∧
    ((run_insight_analysis rateAllow false admin_id (Except.ok r)).1 = .ok r ∧
     (run_insight_analysis rateAllow true admin_id (Except.ok r)).1 = .ok r ∧
     OrchEvent.auditFailureLogged ∈
       (run_insight_analysis rateAllow false admin_id (Except.ok r)).2) := by
  refine ⟨⟨?_, ?_, ?_⟩, ⟨?_, ?_, ?_⟩, ⟨?_, ?_, ?_⟩, ⟨?_, ?_, ?_⟩, ⟨?_, ?_, ?_⟩⟩ <;>
    simp [run_quality_check, run_generate_variants, run_clarify_question,
      run_completion_summary, run_insight_analysis, logWrite, hq, hc]

/-- Witness for C3 with an allow-all limiter and concrete results. -/
theorem orchestrator_audit_transparent_witness :
    (run_quality_check (fun _ _ _ => true) false "a1" (Except.ok (7 : Nat))).1 =
      .ok 7 ∧
    (run_clarify_question (fun _ _ _ => true) false "d1" "s1"
        (Except.ok ⟨"q", "all good", none, false⟩)).1 =
      .ok (moderateClarification ⟨"q", "all good", none, false⟩) ∧
    OrchEvent.auditFailureLogged ∈
      (run_quality_check (fun _ _ _ => true) false "a1" (Except.ok (7 : Nat))).2 := by
  have h := orchestrator_audit_transparent (fun _ _ _ => true) "a1" "d1" "s1"
    (7 : Nat) ⟨"q", "all good", none, false⟩ rfl rfl
  exact ⟨h.1.1, h.2.2.1.1, h.1.2.2⟩

/-- C7 counterexample: a text that both sounds like medical advice and
contains a structured identifier is replaced with the advice fallback, not
the disclosure fallback, because the medical-advice loop runs first — so
"returns the disclosure fallback whenever the text contains a PHI pattern"
fails as stated. -/
theorem check_output_overlap_cex :
    phiPatternAny "you should take 123-45-6789" = true ∧
    check_output "you should take 123-45-6789" = (false, advice_fallback) ∧
    advice_fallback ≠ disclosure_fallback := by
  refine ⟨by decide, ?_, by decide⟩
  have hmed : medicalAdviceAny "you should take 123-45-6789" = true := by decide
  simp [check_output, hmed]

/-- C7 (amended): output moderation returns the fixed advice fallback when
any medical-advice pattern matches; the fixed disclosure fallback when no
medical-advice pattern matches but a structured-identifier (PHI) pattern
does; and the input unchanged when neither matches — and a match never fails
the surrounding orchestrated call: the clarification action still returns a
success with the substituted text. -/
theorem check_output_spec (s : String) (rateAllow : String → Nat → Nat → Bool)
    (auditOk : Bool) (doctor_id survey_id : String) (rc : ClarificationResult)
    (hallow : rateAllow ("clarify:" ++ doctor_id ++ ":" ++ survey_id) 10 86400 = true) :
    (medicalAdviceAny s = true → check_output s = (false, advice_fallback)) ∧
    (medicalAdviceAny s = false → phiPatternAny s = true →
      check_output s = (false, disclosure_fallback)) ∧
    (medicalAdviceAny s = false → phiPatternAny s = false →
      check_output s = (true, s)) ∧
    (run_clarify_question rateAllow auditOk doctor_id survey_id (Except.ok rc)).1 =
      .ok (moderateClarification rc) := by
  refine ⟨fun hm => by simp [check_output, hm],
    fun hm hp => by simp [check_output, hm, hp],
    fun hm hp => by simp [check_output, hm, hp],
    by simp [run_clarify_question, hallow]⟩

/-- Witness for C7 (amended): one text per branch, plus the clarification
action completing with the moderated fallback text. -/
theorem check_output_spec_witness :
    check_output "you should take an aspirin" = (false, advice_fallback) ∧
    check_output "the MRN is on file" = (false, disclosure_fallback) ∧
    check_output "How often do you chart?" = (true, "How often do you chart?") ∧
    (run_clarify_question (fun _ _ _ => true) true "d1" "s1"
        (Except.ok ⟨"q", "you should take an aspirin", none, false⟩)).1 =
      .ok (moderateClarification ⟨"q", "you should take an aspirin", none, false⟩) := by
  refine ⟨?_, ?_, ?_, ?_⟩
  · exact (check_output_spec "you should take an aspirin" (fun _ _ _ => true) true
      "d1" "s1" ⟨"q", "", none, false⟩ rfl).1 (by decide)
  · exact (check_output_spec "the MRN is on file" (fun _ _ _ => true) true
      "d1" "s1" ⟨"q", "", none, false⟩ rfl).2.1 (by decide) (by decide)
  · exact (check_output_spec "How often do you chart?" (fun _ _ _ => true) true
      "d1" "s1" ⟨"q", "", none, false⟩ rfl).2.2.1 (by decide) (by decide)
  · exact (check_output_spec "" (fun _ _ _ => true) true "d1" "s1"
      ⟨"q", "you should take an aspirin", none, false⟩ rfl).2.2.2

/-- Prefix tests are preserved by lowercasing both sides. -/
theorem startsWithList_toLower : ∀ (n s : List Char), startsWithList n s = true →
    startsWithList (n.map Char.toLower) (s.map Char.toLower) = true
  | [], _, _ => rfl
  | p :: ps, [], h => by simp [startsWithList] at h
  | p :: ps, c :: cs, h => by
    simp only [startsWithList, Bool.and_eq_true, beq_iff_eq] at h
    simp only [List.map_cons, startsWithList, Bool.and_eq_true, beq_iff_eq]
    exact ⟨by rw [h.1], startsWithList_toLower ps cs h.2⟩

/-- Substring containment is preserved by lowercasing both sides. -/
theorem hasSubstr_toLower : ∀ (n s : List Char), hasSubstr n s = true →
    hasSubstr (n.map Char.toLower) (s.map Char.toLower) = true
  | n, [], h => by
    simp only [hasSubstr, List.isEmpty_iff] at h
    subst h
    rfl
  | n, c :: cs, h => by
    simp only [hasSubstr, Bool.or_eq_true] at h
    simp only [List.map_cons, hasSubstr, Bool.or_eq_true]
    rcases h with h | h
    · exact Or.inl (by simpa using startsWithList_toLower n (c :: cs) h)
    · exact Or.inr (hasSubstr_toLower n cs h)

/-- C8: input validation flags a question containing "date of birth" and a
question containing an SSN-shaped `\d{3}-\d{2}-\d{4}` match; a set of clean
questions yields an empty violations list; every flagged question yields a
violation, and every returned violation carries the offending question's id,
a 100-character truncated preview of its text, the violation category, and
the fixed remediation instruction. -/
theorem validate_survey_for_phi_spec (questions : List QDict) (text : String)
    (q : QDict) :
    (hasSubstr "date of birth".data text.data = true →
      (check_question_for_phi text).1 = false) ∧
    (reSearch ssnM text = true → (check_question_for_phi text).1 = false) ∧
    ((∀ q' ∈ questions, (check_question_for_phi q'.text).1 = true) →
      validate_survey_for_phi questions = []) ∧
    (q ∈ questions → (check_question_for_phi q.text).1 = false →
      (⟨q.id, q.text.take 100, (check_question_for_phi q.text).2,
        phi_recommendation⟩ : Violation) ∈ validate_survey_for_phi questions) ∧
    (∀ v ∈ validate_survey_for_phi questions, ∃ q' ∈ questions,
      v = ⟨q'.id, q'.text.take 100, (check_question_for_phi q'.text).2,
        phi_recommendation⟩ ∧ (check_question_for_phi q'.text).1 = false) := by
  refine ⟨?_, ?_, ?_, ?_, ?_⟩
  · intro h
    have hl := hasSubstr_toLower "date of birth".data text.data h
    rw [show ("date of birth".data.map Char.toLower) = "date of birth".data
      from by decide] at hl
    cases hf : PHI_COLLECTION_KEYWORDS.find?
        (fun k => hasSubstr k.data (strLower text).data) with
    | some k => simp [check_question_for_phi, hf]
    | none =>
      rw [List.find?_eq_none] at hf
      exact absurd hl (by simpa using hf "date of birth" (by decide))
  · intro h
    cases hf : PHI_COLLECTION_KEYWORDS.find?
        (fun k => hasSubstr k.data (strLower text).data) with
    | some k => simp [check_question_for_phi, hf]
    | none =>
      cases hf2 : PHI_PATTERNS.find? (fun p => reSearch p.1 text) with
      | some p => simp [check_question_for_phi, hf, hf2]
      | none =>
        rw [List.find?_eq_none] at hf2
        exact absurd h (by simpa using hf2 (ssnM, "SSN") (by simp [PHI_PATTERNS]))
  · intro hall
    unfold validate_survey_for_phi
    rw [List.flatMap_eq_nil_iff]
    intro q' hq'
    simp [hall q' hq']
  · intro hmem hfalse
    unfold validate_survey_for_phi
    exact List.mem_flatMap.mpr ⟨q, hmem, by simp [hfalse]⟩
  · intro v hv
    unfold validate_survey_for_phi at hv
    obtain ⟨q', hq', hvf⟩ := List.mem_flatMap.mp hv
    cases hcheck : (check_question_for_phi q'.text).1 with
    | true => simp [hcheck] at hvf
    | false =>
      simp only [hcheck, Bool.false_eq_true, if_false, List.mem_singleton] at hvf
      exact ⟨q', hq', hvf, hcheck⟩

set_option maxRecDepth 8000 in
/-- Witness for C8 on concrete questions. -/
theorem validate_survey_for_phi_witness :
    (check_question_for_phi "What is your date of birth?").1 = false ∧
    (check_question_for_phi "Please enter 123-45-6789").1 = false ∧
    validate_survey_for_phi [⟨some "q3", "How satisfied are you?"⟩] = [] ∧
    (⟨some "q1", "What is your date of birth?",
      (check_question_for_phi "What is your date of birth?").2,
      phi_recommendation⟩ : Violation) ∈
      validate_survey_for_phi
        [⟨some "q1", "What is your date of birth?"⟩,
         ⟨some "q3", "How satisfied are you?"⟩] := by
  refine ⟨?_, ?_, ?_, ?_⟩
  · exact (validate_survey_for_phi_spec [] "What is your date of birth?"
      ⟨none, ""⟩).1 (by decide)
  · exact (validate_survey_for_phi_spec [] "Please enter 123-45-6789"
      ⟨none, ""⟩).2.1 (by decide)
  · exact (validate_survey_for_phi_spec [⟨some "q3", "How satisfied are you?"⟩]
      "" ⟨none, ""⟩).2.2.1 (by decide)
  · have h := (validate_survey_for_phi_spec
      [⟨some "q1", "What is your date of birth?"⟩,
       ⟨some "q3", "How satisfied are you?"⟩] ""
      ⟨some "q1", "What is your date of birth?"⟩).2.2.2.1
      (by decide) (by decide)
    simpa using h

/-- A substitution pass over text in which the pattern matches at no
position is the identity. -/
theorem subAux_id (m : Matcher) (tok : List Char) :
    ∀ (fuel : Nat) (prevW : Bool) (s : List Char), s.length ≤ fuel →
      searchAux m prevW s = false → subAux m tok fuel prevW s = s
  | 0, _, [], _, _ => rfl
  | 0, _, _ :: _, hle, _ => by simp at hle
  | _ + 1, _, [], _, _ => rfl
  | fuel + 1, prevW, c :: rest, hle, hsearch => by
    simp only [searchAux, Bool.or_eq_false_iff, Bool.not_eq_false'] at hsearch
    have hnone : matchLenAt m prevW (c :: rest) = none := by
      unfold matchLenAt
      rw [List.isEmpty_iff.mp hsearch.1]
    simp only [subAux, hnone]
    rw [subAux_id m tok fuel (isWordChar c) rest (by simpa using hle) hsearch.2]

/-- `pySub` on text its pattern does not match is the identity. -/
theorem pySub_id (m : Matcher) (tok : String) (s : String)
    (h : reSearch m s = false) : pySub m tok s = s := by
  unfold pySub
  rw [subAux_id m tok.data s.data.length false s.data (le_refl _) h]

/-- C9: redaction replaces SSN-like, phone-number and email-address matches
in place with their fixed placeholder tokens while preserving all other
text — on the sample input both placeholders are substituted and the rest is
unchanged — and on text in which none of the three patterns matches,
redaction is the identity function. -/
theorem check_response_for_phi_spec (s : String)
    (hssn : reSearch ssnM s = false) (hphone : reSearch phoneM s = false)
    (hemail : reSearch emailM s = false) :
    check_response_for_phi s = s ∧
    check_response_for_phi "call me at 555-123-4567 or x@y.com" =
      "call me at [REDACTED-PHONE] or [REDACTED-EMAIL]" ∧
    check_response_for_phi "my ssn is 123-45-6789." =
      "my ssn is [REDACTED-SSN]." := by
  refine ⟨?_, by decide, by decide⟩
  unfold check_response_for_phi
  rw [pySub_id _ _ _ hssn, pySub_id _ _ _ hphone, pySub_id _ _ _ hemail]

/-- Witness for C9 on clean text. -/
theorem check_response_for_phi_witness :
    check_response_for_phi "thanks, the workflow is fine" =
      "thanks, the workflow is fine" :=
  (check_response_for_phi_spec "thanks, the workflow is fine"
    (by decide) (by decide) (by decide)).1
